import Mathlib

/-!
Shallow embedding of the gin-metrics instrumentation middleware
(collector.go, option.go, and the metric catalog file) together with
theorems checking the natural-language specification against it.

Conventions:
- Go machine integers become `Int` (no arithmetic here ever overflows a
  64-bit machine word for the quantities involved).
- Go `nil` pointers and nil interface values become `Option`.
- A Go panic (failed interface type assertion, method call through a nil
  pointer) becomes the `GoPanic` error of an `Except`.
- External library behavior (the prometheus client registry, the
  exactly-once primitive `sync.Once`) is modelled from its documented
  contract, while everything from the repository itself is translated
  statement by statement.
-/

namespace GinMetrics

/-- A Go runtime panic relevant to this code base. -/
inductive GoPanic
  | typeAssertion
  | nilDereference
deriving DecidableEq

/-- The concrete prometheus collector kinds produced by `NewMetric`. -/
inductive CollectorKind
  | counterVec
  | counter
  | gaugeVec
  | gauge
  | histogramVec
  | histogram
  | summaryVec
  | summary
deriving DecidableEq

/-- A prometheus collector as configured by `NewMetric`: its concrete kind,
the options passed to the constructor, and an allocation identity `id`
distinguishing separately constructed instances. -/
structure Collector where
  kind : CollectorKind
  subsystem : String
  name : String
  help : String
  labelNames : List String
  id : Nat
deriving DecidableEq

/-- `url.URL`, restricted to the `Path` field, the only one this code reads. -/
structure URL where
  path : String
deriving DecidableEq

/-- `http.Request`, restricted to the fields read by this code base.
`url` is an `Option` because Go holds it as a possibly-nil pointer, and
`computeApproximateRequestSize` explicitly guards against nil. -/
structure HttpRequest where
  url : Option URL
  method : String
  proto : String
  header : List (String × List String)
  host : String
  contentLength : Int
deriving DecidableEq

/-- The view of `gin.Context` consumed by the update functions:
the request, the response writer status and size, and the handler name. -/
structure GinContext where
  request : HttpRequest
  writerStatus : Int
  writerSize : Int
  handlerName : String
deriving DecidableEq

/-- Which built-in update function (`ExecFn` closure) a metric carries.
Each constructor corresponds to one `ExecFn` literal in the source catalog;
`slowRequest` carries the configured threshold in nanoseconds and
`customCounter` is the plain counter `ExecFn` of the usage example. -/
inductive ExecKind
  | requestTotal
  | requestDuration
  | responseSize
  | requestSize
  | slowRequest (slowTimeNs : Int)
  | customCounter
deriving DecidableEq

/-- The `Metric` struct: name, description, kind string, label names, the
update function (as an `ExecKind` tag interpreted by `runExec`), and the
lazily-cached collector (`nil` until the `once` fires). -/
structure Metric where
  collector : Option Collector := none
  Name : String
  Description : String
  Kind : String
  Args : List String := []
  execKind : ExecKind
deriving DecidableEq

/-- `NewMetric` associates a prometheus collector based on the kind string
(the Go struct field named `Type`, rendered here as `Kind` because `Type` is
reserved in Lean). The Go function declares `var metric prometheus.Collector`,
switches over the eight recognized kind strings, and returns `metric`, so an
unrecognized kind returns the nil collector (`none`) with no error.
`allocId` records the allocation identity of the freshly constructed
collector. -/
def NewMetric (m : Metric) (subsystem : String) (allocId : Nat) : Option Collector :=
  match m.Kind with
  | "counter_vec" =>
    some ⟨.counterVec, subsystem, m.Name, m.Description, m.Args, allocId⟩
  | "counter" =>
    some ⟨.counter, subsystem, m.Name, m.Description, [], allocId⟩
  | "gauge_vec" =>
    some ⟨.gaugeVec, subsystem, m.Name, m.Description, m.Args, allocId⟩
  | "gauge" =>
    some ⟨.gauge, subsystem, m.Name, m.Description, [], allocId⟩
  | "histogram_vec" =>
    some ⟨.histogramVec, subsystem, m.Name, m.Description, m.Args, allocId⟩
  | "histogram" =>
    some ⟨.histogram, subsystem, m.Name, m.Description, [], allocId⟩
  | "summary_vec" =>
    some ⟨.summaryVec, subsystem, m.Name, m.Description, m.Args, allocId⟩
  | "summary" =>
    some ⟨.summary, subsystem, m.Name, m.Description, [], allocId⟩
  | _ => none

/-- The eight kind strings recognized by the `switch` in `NewMetric`. -/
def recognizedKinds : List String :=
  ["counter_vec", "counter", "gauge_vec", "gauge",
   "histogram_vec", "histogram", "summary_vec", "summary"]

/-- The four vector kind strings, whose constructors take the label list. -/
def vectorKinds : List String :=
  ["counter_vec", "gauge_vec", "histogram_vec", "summary_vec"]

/-- `computeApproximateRequestSize`, translated line by line: path length if
the URL pointer is non-nil, plus method, proto, header names and values,
host, and the content length whenever it differs from -1. -/
def computeApproximateRequestSize (r : HttpRequest) : Int :=
  let s : Int := match r.url with
    | some u => (u.path.length : Int)
    | none => 0
  let s := s + (r.method.length : Int)
  let s := s + (r.proto.length : Int)
  let s := r.header.foldl
    (fun acc nv => nv.2.foldl (fun a v => a + (v.length : Int)) (acc + (nv.1.length : Int))) s
  let s := s + (r.host.length : Int)
  if r.contentLength ≠ -1 then s + r.contentLength else s

/-- An observable update performed on a collector by an update function.
Observed values are recorded as the raw integers the Go code converts to
float64 before observing. -/
inductive MetricEvent
  | counterVecInc (collectorId : Nat) (labelValues : List String)
  | histogramVecObserve (collectorId : Nat) (labelValues : List String) (elapsedNs : Int)
  | summaryObserve (collectorId : Nat) (value : Int)
  | counterInc (collectorId : Nat)
deriving DecidableEq

/-- A Go interface type assertion `collector.(T)` without the comma-ok form:
panics when the interface value is nil or holds a different concrete kind. -/
def assertKind (collector : Option Collector) (k : CollectorKind) : Except GoPanic Collector :=
  match collector with
  | none => .error .typeAssertion
  | some col => if col.kind = k then .ok col else .error .typeAssertion

/-- Interpreter for the `ExecFn` closures of the source catalog. Each branch
mirrors one closure: the type assertion on the cached collector, then the
update built from the completed request context. `elapsedNs` is the value of
`time.Since(startTime)` in nanoseconds. -/
def runExec (k : ExecKind) (collector : Option Collector) (elapsedNs : Int)
    (c : GinContext) : Except GoPanic (List MetricEvent) :=
  match k with
  | .requestTotal =>
    match assertKind collector .counterVec with
    | .error e => .error e
    | .ok col =>
      match c.request.url with
      | none => .error .nilDereference
      | some u =>
        .ok [.counterVecInc col.id
          [toString c.writerStatus, c.request.method, c.handlerName, c.request.host, u.path]]
  | .requestDuration =>
    match assertKind collector .histogramVec with
    | .error e => .error e
    | .ok col =>
      match c.request.url with
      | none => .error .nilDereference
      | some u =>
        .ok [.histogramVecObserve col.id
          [toString c.writerStatus, c.request.method, u.path] elapsedNs]
  | .responseSize =>
    match assertKind collector .summary with
    | .error e => .error e
    | .ok col => .ok [.summaryObserve col.id c.writerSize]
  | .requestSize =>
    match assertKind collector .summary with
    | .error e => .error e
    | .ok col => .ok [.summaryObserve col.id (computeApproximateRequestSize c.request)]
  | .slowRequest slowTimeNs =>
    if slowTimeNs < elapsedNs then
      match assertKind collector .counter with
      | .error e => .error e
      | .ok col => .ok [.counterInc col.id]
    else .ok []
  | .customCounter =>
    match assertKind collector .counter with
    | .error e => .error e
    | .ok col => .ok [.counterInc col.id]

/-- `Metric.Exec`: invokes the update function on the cached collector. -/
def Metric.Exec (m : Metric) (elapsedNs : Int) (c : GinContext) :
    Except GoPanic (List MetricEvent) :=
  runExec m.execKind m.collector elapsedNs c

/-- The dispatch loop of `HandlerFunc`: `for _, metric := range p.metrics
\x7b metric.Exec(start, c) \x7d`. A panic in one Exec propagates out of the
loop: events performed before the panic are kept, metrics after it never
run. Returns the events performed and the propagating panic, if any. -/
def dispatch (elapsedNs : Int) (c : GinContext) :
    List Metric → List MetricEvent × Option GoPanic
  | [] => ([], none)
  | m :: rest =>
    match m.Exec elapsedNs c with
    | .error e => ([], some e)
    | .ok evs =>
      let r := dispatch elapsedNs c rest
      (evs ++ r.1, r.2)

/-- `DefaultMetricsPath` from collector.go. -/
def DefaultMetricsPath : String := "metrics"

/-- `DefaultJobName` from collector.go. -/
def DefaultJobName : String := "gin"

/-- `DefaultPushInterval` (5 seconds) in nanoseconds, the unit of
`time.Duration`. -/
def DefaultPushIntervalNs : Int := 5000000000

/-- The `Prometheus` struct, restricted to the configuration fields the
verified operations read (the router handles, logger handle and logger tag
carry no data relevant to any property here). -/
structure Prometheus where
  metrics : List Metric := []
  metricsPath : String := DefaultMetricsPath
  jobName : String := DefaultJobName
  pushIntervalNs : Int := DefaultPushIntervalNs
  pushGatewayURL : String := ""
  instanceName : String := ""
  metricsURL : String := ""
  accounts : List (String × String) := []
  metricsBasicAuth : String := ""
deriving DecidableEq

/-- An `Option` from option.go is a function updating the struct. -/
def GinOption : Type := Prometheus → Prometheus

/-- `WithMetrics` appends to the metric list. -/
def WithMetrics (ms : List Metric) : GinOption :=
  fun p => { p with metrics := p.metrics ++ ms }

/-- `WithMetricsPath` sets the export path. -/
def WithMetricsPath (s : String) : GinOption :=
  fun p => { p with metricsPath := s }

/-- `WithPushGatewayUrl` sets the push gateway URL. -/
def WithPushGatewayUrl (pgw : String) : GinOption :=
  fun p => { p with pushGatewayURL := pgw }

/-- `WithExportAccounts` sets the export basic-auth accounts. -/
def WithExportAccounts (accounts : List (String × String)) : GinOption :=
  fun p => { p with accounts := accounts }

/-- `WithJobName` sets the job name. -/
def WithJobName (jobName : String) : GinOption :=
  fun p => { p with jobName := jobName }

/-- `WithMetricsURL` sets the local metrics-fetch URL. -/
def WithMetricsURL (url : String) : GinOption :=
  fun p => { p with metricsURL := url }

/-- One byte group of the standard base64 alphabet. -/
def b64Char (n : Nat) : Char :=
  "ABCDEFGHIJKLMNOPQRSTUVWXYZabcdefghijklmnopqrstuvwxyz0123456789+/".toList.getD n 'A'

/-- `base64.StdEncoding.EncodeToString`: standard base64 with `=` padding,
three input bytes per four output characters. -/
def base64EncodeBytes : List Nat → String
  | [] => ""
  | [a] =>
    String.mk [b64Char (a / 4), b64Char (a % 4 * 16), '=', '=']
  | [a, b] =>
    String.mk [b64Char (a / 4), b64Char (a % 4 * 16 + b / 16), b64Char (b % 16 * 4), '=']
  | a :: b :: c :: rest =>
    String.mk [b64Char (a / 4), b64Char (a % 4 * 16 + b / 16),
      b64Char (b % 16 * 4 + c / 64), b64Char (c % 64)] ++ base64EncodeBytes rest

/-- UTF-8 encoding of one character, the byte layout Go uses for `string`
values. -/
def charUtf8 (c : Char) : List Nat :=
  if c.toNat < 128 then [c.toNat]
  else if c.toNat < 2048 then [192 + c.toNat / 64, 128 + c.toNat % 64]
  else if c.toNat < 65536 then
    [224 + c.toNat / 4096, 128 + c.toNat / 64 % 64, 128 + c.toNat % 64]
  else
    [240 + c.toNat / 262144, 128 + c.toNat / 4096 % 64,
     128 + c.toNat / 64 % 64, 128 + c.toNat % 64]

/-- The byte sequence of a Go `string` (`[]byte(s)`). -/
def utf8Bytes (s : String) : List Nat :=
  s.data.flatMap charUtf8

/-- The basic-auth token `New` derives from one account:
`base64.StdEncoding.EncodeToString([]byte(username + ":" + password))`. -/
def metricsBasicAuthOf (username password : String) : String :=
  base64EncodeBytes (utf8Bytes (username ++ ":" ++ password))

/-- The configuration part of `New`: defaults, option application, and the
derivation of `metricsBasicAuth` from one account when accounts are
configured. Go iterates the accounts map and breaks after an arbitrary
entry; the head of the association list stands for that entry. The router
wiring, `registerMetrics` call and `startPush` call performed by `New` are
modelled by `HandlerFunc`, `registerMetrics` and `pushTick` below. -/
def New (opts : List GinOption) (hostname : String) : Prometheus :=
  let p : Prometheus := { instanceName := hostname }
  let p := opts.foldl (fun q o => o q) p
  match p.accounts with
  | [] => p
  | (username, password) :: _ =>
    { p with metricsBasicAuth := metricsBasicAuthOf username password }

/-- What one run of the `HandlerFunc` middleware around a completed request
produces: whether the wrapped handler chain proceeded (the middleware never
calls `Abort`, and under the gin chain contract a middleware that returns
without aborting lets the request continue), the collector updates
performed, and the panic propagating out of the middleware, if any. -/
structure MiddlewareOutcome where
  handlerRan : Bool
  events : List MetricEvent
  panic : Option GoPanic
deriving DecidableEq

/-- `Prometheus.HandlerFunc`: if the request path equals the export path,
return at once (no timing, no dispatch); otherwise record the start time,
let the handler run, then dispatch to every metric in order. Reading
`c.Request.URL.Path` through a nil URL pointer would panic before anything
else. -/
def HandlerFunc (p : Prometheus) (c : GinContext) (elapsedNs : Int) : MiddlewareOutcome :=
  match c.request.url with
  | none => ⟨false, [], some .nilDereference⟩
  | some u =>
    if u.path = p.metricsPath then ⟨true, [], none⟩
    else
      let r := dispatch elapsedNs c p.metrics
      ⟨true, r.1, r.2⟩

/-- The body of an HTTP response, as read by `ioutil.ReadAll`. -/
structure HttpResponse where
  body : List Nat
deriving DecidableEq

/-- The GET request `fetchMetrics` builds: the local metrics URL and the
`Authorization` header, set to the raw `metricsBasicAuth` token exactly when
that token is nonempty. -/
structure GetRequest where
  url : String
  authorization : Option String
deriving DecidableEq

/-- The request side of `Prometheus.fetchMetrics`. -/
def fetchRequest (p : Prometheus) : GetRequest :=
  ⟨p.metricsURL, if p.metricsBasicAuth ≠ "" then some p.metricsBasicAuth else none⟩

/-- The response side of `Prometheus.fetchMetrics`, given the outcome of
`http.DefaultClient.Do` (`none` when `Do` returns a nil response with an
error). The Go code discards the error and unconditionally runs
`defer resp.Body.Close()`, so a failed transport call dereferences a nil
pointer and panics; on success the body bytes are returned. -/
def fetchMetrics (doResult : Option HttpResponse) : Except GoPanic (List Nat) :=
  match doResult with
  | none => .error .nilDereference
  | some resp => .ok resp.body

/-- `Prometheus.GetPushGatewayURL`. -/
def GetPushGatewayURL (p : Prometheus) : String :=
  p.pushGatewayURL ++ "/metrics/job/" ++ p.jobName ++ "/instance/" ++ p.instanceName

/-- A POST issued to the push gateway. -/
structure PostRequest where
  url : String
  body : List Nat
deriving DecidableEq

/-- `Prometheus.sendToPushGateway`: returns at once when the local
metrics-fetch URL is empty, otherwise POSTs the snapshot to the push
gateway URL. -/
def sendToPushGateway (p : Prometheus) (metrics : List Nat) : Option PostRequest :=
  if p.metricsURL = "" then none
  else some ⟨GetPushGatewayURL p, metrics⟩

/-- One tick of the `startPush` loop:
`p.sendToPushGateway(p.fetchMetrics())`. A panic inside `fetchMetrics`
propagates (killing the forwarder goroutine); otherwise the tick yields the
POST performed, if any. -/
def pushTick (p : Prometheus) (doResult : Option HttpResponse) :
    Except GoPanic (Option PostRequest) :=
  match fetchMetrics doResult with
  | .error e => .error e
  | .ok body => .ok (sendToPushGateway p body)

/-- The registration error returned by the prometheus client registry. -/
inductive RegError
  | alreadyRegistered (fqName : String)
deriving DecidableEq

/-- The fully qualified metric name built by the prometheus client from the
constructor options (`BuildFQName` with empty namespace: the subsystem and
the name joined by an underscore). -/
def fqName (subsystem name : String) : String :=
  if subsystem = "" then name else subsystem ++ "_" ++ name

/-- State threaded through `Prometheus.registerMetrics`: the registry
contents, the collector cached by each metric after its `once` fired, the
errors handed to the logger, and the next allocation identity. -/
structure RegState where
  registry : List Collector := []
  collectors : List (Option Collector) := []
  logged : List RegError := []
  nextAlloc : Nat := 0
deriving DecidableEq

/-- One iteration of the `registerMetrics` loop:
`prometheus.Register(metric.Collector(p.jobName))`, logging a non-nil
error. `Metric.Collector` fires the once and caches `NewMetric`. The
registry contract (prometheus client): registering a nil collector calls
`Describe` through a nil interface and panics; registering a collector
whose fully qualified name collides with one already registered returns an
error; otherwise the collector is added. -/
def registerOne (job : String) (st : RegState) (m : Metric) : Except GoPanic RegState :=
  match NewMetric m job st.nextAlloc with
  | none => .error .nilDereference
  | some c =>
    if st.registry.any (fun c0 => fqName c0.subsystem c0.name == fqName c.subsystem c.name) then
      .ok { registry := st.registry,
            collectors := st.collectors ++ [some c],
            logged := st.logged ++ [.alreadyRegistered (fqName c.subsystem c.name)],
            nextAlloc := st.nextAlloc + 1 }
    else
      .ok { registry := st.registry ++ [c],
            collectors := st.collectors ++ [some c],
            logged := st.logged,
            nextAlloc := st.nextAlloc + 1 }

/-- The `registerMetrics` loop over a metric list. -/
def registerMetricsGo (job : String) (st : RegState) : List Metric → Except GoPanic RegState
  | [] => .ok st
  | m :: rest =>
    match registerOne job st m with
    | .error e => .error e
    | .ok st2 => registerMetricsGo job st2 rest

/-- `Prometheus.registerMetrics` starting from the empty registry state. -/
def registerMetrics (job : String) (ms : List Metric) : Except GoPanic RegState :=
  registerMetricsGo job {} ms

namespace OnceModel

/-!
Interleaving model of `Metric.Collector(jobName)` under concurrent first
access. Each thread executes `m.once.Do(func() \x7b m.collector =
NewMetric(m, jobName) \x7d); return m.collector`. The documented contract of
`sync.Once` serializes the `Do` calls and makes the guarded write visible
to every later `Do`, so one whole call is modelled as one atomic step; the
scheduler picks which pending thread steps next.
-/

/-- A thread is pending or has returned a collector value (possibly nil). -/
inductive TState
  | pending
  | returned (ret : Option Collector)
deriving DecidableEq

/-- Shared state: the once flag, the cached `m.collector` slot, the number
of times the construction function has run, the next allocation identity,
and every thread's state. -/
structure Sys where
  done : Bool
  slot : Option Collector
  constructions : Nat
  nextAlloc : Nat
  threads : Nat → TState

/-- The initial state: nothing constructed, every thread pending. -/
def initSys : Sys :=
  ⟨false, none, 0, 0, fun _ => .pending⟩

/-- Thread `i` performs its whole `Collector(jobName)` call: if the once
already fired, it just reads the cached slot; otherwise it constructs via
`NewMetric`, stores the result, marks the once done, and reads the slot. -/
def callStep (m : Metric) (job : String) (s : Sys) (i : Nat) : Sys :=
  if s.done then
    { s with threads := Function.update s.threads i (.returned s.slot) }
  else
    let c := NewMetric m job s.nextAlloc
    { done := true, slot := c, constructions := s.constructions + 1,
      nextAlloc := s.nextAlloc + 1,
      threads := Function.update s.threads i (.returned c) }

/-- Reachability under any schedule: any pending thread may step next. -/
inductive Reaches (m : Metric) (job : String) : Sys → Sys → Prop
  | refl (s : Sys) : Reaches m job s s
  | step (s t : Sys) (i : Nat) (h : Reaches m job s t) (hp : t.threads i = .pending) :
      Reaches m job s (callStep m job t i)

end OnceModel

/-!
Concrete instances used by counterexamples and witnesses. `ctx0` is a
completed GET request, `summaryCol` and `counterCol` are constructed
collectors, `badMetric` is a metric whose cached collector kind does not
match the kind its update function asserts, and `goodMetric` is the plain
counter metric of the usage example.
-/

/-- A completed request context for concrete evaluations. -/
def ctx0 : GinContext :=
  { request :=
      { url := some ⟨"/hello"⟩
        method := "GET"
        proto := "HTTP/1.1"
        header := []
        host := "example.com"
        contentLength := 0 }
    writerStatus := 200
    writerSize := 7
    handlerName := "main.handler" }

/-- A constructed summary collector. -/
def summaryCol : Collector :=
  ⟨.summary, "gin", "request_size_bytes", "The HTTP request sizes in bytes.", [], 0⟩

/-- A constructed plain counter collector. -/
def counterCol : Collector :=
  ⟨.counter, "gin", "test_metric", "Counter test metric", [], 1⟩

/-- `RequestTotal` from the catalog, but with a summary cached in its
collector slot: its update function asserts `*prometheus.CounterVec`, so
executing it panics. -/
def badMetric : Metric :=
  { collector := some summaryCol
    Name := "requests_total"
    Description := "How many HTTP requests processed, partitioned by status code and HTTP method."
    Kind := "counter_vec"
    Args := ["code", "method", "handler", "host", "url"]
    execKind := .requestTotal }

/-- The plain counter metric of the usage example, with its counter cached. -/
def goodMetric : Metric :=
  { collector := some counterCol
    Name := "test_metric"
    Description := "Counter test metric"
    Kind := "counter"
    execKind := .customCounter }

/-- A metric definition with an unrecognized kind string. -/
def bogusMetric : Metric :=
  { Name := "x", Description := "d", Kind := "bogus", execKind := .customCounter }

/-- A vector-kind metric definition declared with zero label names. -/
def noLabelVec : Metric :=
  { Name := "v", Description := "d", Kind := "counter_vec", Args := [],
    execKind := .requestTotal }

/-- The request of the specification example for the size approximation:
method GET, path /a, protocol HTTP/1.1, host h, no headers, content length
-1. -/
def exampleSizeReq : HttpRequest :=
  { url := some ⟨"/a"⟩, method := "GET", proto := "HTTP/1.1", header := [],
    host := "h", contentLength := -1 }

/-- The same request with content length -2 instead of -1. -/
def negativeSizeReq : HttpRequest :=
  { url := some ⟨"/a"⟩, method := "GET", proto := "HTTP/1.1", header := [],
    host := "h", contentLength := -2 }

/-- The request-size formula in the words of the specification: path length
plus method length plus protocol length plus header name and value lengths
plus host length, plus the content length only when it is non-negative.
Stated for comparison against `computeApproximateRequestSize`. -/
def specApproximateRequestSize (r : HttpRequest) : Int :=
  (match r.url with
    | some u => (u.path.length : Int)
    | none => 0)
  + (r.method.length : Int) + (r.proto.length : Int)
  + r.header.foldl
      (fun acc nv => nv.2.foldl (fun a v => a + (v.length : Int)) (acc + (nv.1.length : Int))) 0
  + (r.host.length : Int)
  + (if 0 ≤ r.contentLength then r.contentLength else 0)

/-- The header byte total as a standalone sum, used to state closed forms. -/
def headerBytes (h : List (String × List String)) : Int :=
  h.foldl
    (fun acc nv => nv.2.foldl (fun a v => a + (v.length : Int)) (acc + (nv.1.length : Int))) 0

/-- The slow-request counter metric produced by `SlowRequestTotal`, with a
counter collector cached. -/
def slowMetric (slowTimeNs : Int) (col : Collector) : Metric :=
  { collector := some col
    Name := "slow_request_total"
    Description := "The slow HTTP request total."
    Kind := "counter"
    execKind := .slowRequest slowTimeNs }

/-- A completed request whose path is the default export path. -/
def metricsCtx : GinContext :=
  { ctx0 with request := { ctx0.request with url := some ⟨"metrics"⟩ } }

/-- First of two metric definitions sharing one name. -/
def dupMetricA : Metric :=
  { Name := "dup_total", Description := "first", Kind := "counter",
    execKind := .customCounter }

/-- Second of two metric definitions sharing one name. -/
def dupMetricB : Metric :=
  { Name := "dup_total", Description := "second", Kind := "summary",
    execKind := .responseSize }

/-- An instance with a push gateway configured but no local metrics URL. -/
def pushConfigured : Prometheus :=
  New [WithPushGatewayUrl "http://gateway:9091"] "h"

/-- Final state of a two-thread schedule in which both threads perform a
first-time `Collector("gin")` call on the example counter metric. -/
def onceTwoThreads : OnceModel.Sys :=
  OnceModel.callStep goodMetric "gin"
    (OnceModel.callStep goodMetric "gin" OnceModel.initSys 0) 1

/-!
Helper lemmas shared by the claim theorems.
-/

/-- Shifting the accumulator out of the value-length fold. -/
theorem valueFoldShift (l : List String) (a : Int) :
    l.foldl (fun x v => x + (v.length : Int)) a
      = a + l.foldl (fun x v => x + (v.length : Int)) 0 := by
  induction l generalizing a with
  | nil => simp
  | cons v t ih =>
    simp only [List.foldl_cons]
    rw [ih (a + (v.length : Int)), ih ((0 : Int) + (v.length : Int))]
    ring

/-- Shifting the accumulator out of the header fold of
`computeApproximateRequestSize`. -/
theorem headerFoldShift (h : List (String × List String)) (s : Int) :
    h.foldl
        (fun acc nv => nv.2.foldl (fun a v => a + (v.length : Int)) (acc + (nv.1.length : Int))) s
      = s + headerBytes h := by
  induction h generalizing s with
  | nil => simp [headerBytes]
  | cons nv t ih =>
    have hv := valueFoldShift nv.2
    simp only [headerBytes, List.foldl_cons]
    rw [ih, ih, hv (s + (nv.1.length : Int)), hv ((0 : Int) + (nv.1.length : Int))]
    ring

/-- A recognized kind string always yields a collector carrying the job
name as subsystem and the metric name. -/
theorem newMetricKnown (m : Metric) (job : String) (aid : Nat)
    (h : m.Kind ∈ recognizedKinds) :
    ∃ c, NewMetric m job aid = some c ∧ c.subsystem = job ∧ c.name = m.Name := by
  unfold NewMetric
  simp only [recognizedKinds, List.mem_cons, List.not_mem_nil, or_false] at h
  rcases h with h | h | h | h | h | h | h | h <;> rw [h] <;> exact ⟨_, rfl, rfl, rfl⟩

/-- An unrecognized kind string falls through every case of the switch. -/
theorem newMetricUnknown (m : Metric) (job : String) (aid : Nat)
    (h : m.Kind ∉ recognizedKinds) : NewMetric m job aid = none := by
  unfold NewMetric
  split <;> simp_all [recognizedKinds]

/-- String append concatenates the character data. -/
theorem stringDataAppend (s t : String) : (s ++ t).data = s.data ++ t.data := rfl

/-- String append adds the lengths. -/
theorem stringLengthAppend (s t : String) : (s ++ t).length = s.length + t.length := by
  show (s.data ++ t.data).length = s.data.length + t.data.length
  exact List.length_append s.data t.data

/-- Every character encodes to at least one byte. -/
theorem charUtf8_ne_nil (c : Char) : charUtf8 c ≠ [] := by
  unfold charUtf8
  split
  · exact List.cons_ne_nil _ _
  · split
    · exact List.cons_ne_nil _ _
    · split
      · exact List.cons_ne_nil _ _
      · exact List.cons_ne_nil _ _

/-- The byte sequence of an appended string. -/
theorem utf8Bytes_append (s t : String) :
    utf8Bytes (s ++ t) = utf8Bytes s ++ utf8Bytes t := by
  simp [utf8Bytes, stringDataAppend]

/-- The credential string `username:password` has at least one byte. -/
theorem utf8Bytes_account_ne_nil (u pw : String) : utf8Bytes (u ++ ":" ++ pw) ≠ [] := by
  rw [utf8Bytes_append, utf8Bytes_append]
  intro hEq
  rw [List.append_eq_nil] at hEq
  obtain ⟨hEq1, -⟩ := hEq
  rw [List.append_eq_nil] at hEq1
  exact absurd hEq1.2 (by simp [utf8Bytes, charUtf8])

/-- Base64 of a nonempty byte list is a nonempty string. -/
theorem base64_ne_empty : ∀ l : List Nat, l ≠ [] → base64EncodeBytes l ≠ ""
  | [], h => absurd rfl h
  | [_], _ => by
    intro hEq
    have hd := congrArg String.data hEq
    simp [base64EncodeBytes] at hd
  | [_, _], _ => by
    intro hEq
    have hd := congrArg String.data hEq
    simp [base64EncodeBytes] at hd
  | _ :: _ :: _ :: _, _ => by
    intro hEq
    have hd := congrArg String.data hEq
    simp [base64EncodeBytes, stringDataAppend] at hd

/-- The derived basic-auth token is never the empty string. -/
theorem metricsBasicAuthOf_ne_empty (u pw : String) : metricsBasicAuthOf u pw ≠ "" :=
  base64_ne_empty _ (utf8Bytes_account_ne_nil u pw)

/-- The invariant of the once model: the construction function has run at
most once, exactly when the done flag is set, the slot is empty before it
runs, and every returned thread observed the slot value. -/
def OnceModel.Inv (s : OnceModel.Sys) : Prop :=
  s.constructions ≤ 1 ∧
  (s.done = false → s.constructions = 0 ∧ s.slot = none ∧
    ∀ i r, s.threads i ≠ .returned r) ∧
  (s.done = true → s.constructions = 1) ∧
  ∀ i r, s.threads i = .returned r → r = s.slot

/-- The initial state satisfies the invariant. -/
theorem OnceModel.inv_init : OnceModel.Inv OnceModel.initSys := by
  refine ⟨by simp [initSys], fun _ => ⟨rfl, rfl, fun i r => by simp [initSys]⟩,
    by simp [initSys], ?_⟩
  intro i r hin
  simp [initSys] at hin

/-- `callStep` when the once has already fired. -/
theorem OnceModel.callStep_true (m : Metric) (job : String) (s : OnceModel.Sys) (i : Nat)
    (hd : s.done = true) :
    OnceModel.callStep m job s i
      = { s with threads := Function.update s.threads i (.returned s.slot) } := by
  unfold callStep
  rw [hd]
  simp

/-- `callStep` when this thread wins the construction race. -/
theorem OnceModel.callStep_false (m : Metric) (job : String) (s : OnceModel.Sys) (i : Nat)
    (hd : s.done = false) :
    OnceModel.callStep m job s i
      = { done := true, slot := NewMetric m job s.nextAlloc,
          constructions := s.constructions + 1, nextAlloc := s.nextAlloc + 1,
          threads := Function.update s.threads i
            (.returned (NewMetric m job s.nextAlloc)) } := by
  unfold callStep
  rw [hd]
  simp

/-- One call step preserves the invariant. -/
theorem OnceModel.inv_step (m : Metric) (job : String) (s : OnceModel.Sys) (i : Nat)
    (h : OnceModel.Inv s) : OnceModel.Inv (OnceModel.callStep m job s i) := by
  obtain ⟨h1, h2, h3, h4⟩ := h
  cases hd : s.done with
  | true =>
    rw [OnceModel.callStep_true m job s i hd]
    have hc1 := h3 hd
    refine ⟨h1, ?_, fun _ => hc1, ?_⟩
    · intro hdf
      have hdf2 : s.done = false := hdf
      rw [hd] at hdf2
      simp at hdf2
    · intro j r hj
      have hj2 : Function.update s.threads i (TState.returned s.slot) j
          = TState.returned r := hj
      show r = s.slot
      rcases eq_or_ne j i with rfl | hne
      · rw [Function.update_same] at hj2
        exact (TState.returned.inj hj2).symm
      · rw [Function.update_noteq hne] at hj2
        exact h4 j r hj2
  | false =>
    obtain ⟨hc0, hs0, hnr⟩ := h2 hd
    rw [OnceModel.callStep_false m job s i hd]
    refine ⟨?_, ?_, ?_, ?_⟩
    · show s.constructions + 1 ≤ 1
      omega
    · intro hdf
      have hdf2 : true = false := hdf
      simp at hdf2
    · intro _
      show s.constructions + 1 = 1
      omega
    · intro j r hj
      have hj2 : Function.update s.threads i
          (TState.returned (NewMetric m job s.nextAlloc)) j = TState.returned r := hj
      show r = NewMetric m job s.nextAlloc
      rcases eq_or_ne j i with rfl | hne
      · rw [Function.update_same] at hj2
        exact (TState.returned.inj hj2).symm
      · rw [Function.update_noteq hne] at hj2
        exact absurd hj2 (hnr j r)

/-- The invariant holds along every reachable schedule. -/
theorem OnceModel.inv_reaches (m : Metric) (job : String) (s t : OnceModel.Sys)
    (h : OnceModel.Reaches m job s t) (hs : OnceModel.Inv s) : OnceModel.Inv t := by
  induction h with
  | refl => exact hs
  | step t i hst hp ih => exact OnceModel.inv_step m job t i ih

/-!
Claim theorems.
-/

/-- C1: the claim says a failure inside one metric Exec (a kind mismatch
between the cached collector and what the update function expects) is
recovered and does not prevent the remaining metrics from executing. The
code has no recovery: at the concrete input below the first metric panics,
the dispatch loop aborts with the panic and records no update, although the
second metric alone executes fine. -/
theorem C1_exec_panic_propagates :
    dispatch 0 ctx0 [badMetric, goodMetric] = ([], some GoPanic.typeAssertion) ∧
    dispatch 0 ctx0 [goodMetric] = ([MetricEvent.counterInc 1], none) ∧
    HandlerFunc { metrics := [badMetric, goodMetric] } ctx0 0
      = ⟨true, [], some GoPanic.typeAssertion⟩ := ⟨rfl, rfl, rfl⟩

/-- C2: a request whose path equals the configured export path is skipped:
the middleware performs no metric update and does not abort the request,
and the default export path of a `New` instance is "metrics". -/
theorem C2_self_exclusion (p : Prometheus) (c : GinContext) (elapsedNs : Int)
    (u : URL) (host : String)
    (hu : c.request.url = some u) (hpath : u.path = p.metricsPath) :
    HandlerFunc p c elapsedNs = ⟨true, [], none⟩ ∧
    (New [] host).metricsPath = "metrics" := by
  constructor
  · unfold HandlerFunc
    rw [hu]
    simp [hpath]
  · rfl

/-- Witness for C2: the export path request on an instance that registers a
panicking metric and a counting metric updates neither. -/
theorem C2_self_exclusion_witness :
    HandlerFunc (New [WithMetrics [badMetric, goodMetric]] "h") metricsCtx 3
      = ⟨true, [], none⟩ ∧
    (New [] "h").metricsPath = "metrics" :=
  C2_self_exclusion (New [WithMetrics [badMetric, goodMetric]] "h") metricsCtx 3
    ⟨"metrics"⟩ "h" rfl rfl

/-- C3 counterexample: the claim says an unrecognized kind, and a vector
kind with zero label names, fail with a ConfigurationError rather than
producing no collector. In the code an unrecognized kind produces no
collector and no error (the factory has no error channel), and a vector
kind with zero label names produces an ordinary collector. -/
theorem C3_counterexample :
    NewMetric bogusMetric "gin" 0 = none ∧
    NewMetric noLabelVec "gin" 0
      = some ⟨.counterVec, "gin", "v", "d", [], 0⟩ := ⟨rfl, rfl⟩

/-- C3 amended: obtaining the collector of a metric with an unrecognized
kind yields no collector and no error value; registering such a metric then
panics with a nil dereference inside the registry (a crash, not a
ConfigurationError); a vector kind declared with zero label names yields an
ordinary collector with an empty label list. -/
theorem C3_amended (m : Metric) (job : String) (aid : Nat)
    (h : m.Kind ∉ recognizedKinds) :
    NewMetric m job aid = none ∧
    registerMetrics job [m] = .error .nilDereference ∧
    ∀ mv : Metric, mv.Kind ∈ vectorKinds → mv.Args = [] →
      ∃ c, NewMetric mv job aid = some c ∧ c.labelNames = [] := by
  have h0 := newMetricUnknown m job 0 h
  refine ⟨newMetricUnknown m job aid h, ?_, ?_⟩
  · simp [registerMetrics, registerMetricsGo, registerOne, h0]
  · intro mv h1 h2
    simp only [vectorKinds, List.mem_cons, List.not_mem_nil, or_false] at h1
    rcases h1 with h1 | h1 | h1 | h1 <;> (unfold NewMetric; rw [h1]; exact ⟨_, rfl, h2⟩)

/-- Witness for C3 amended at the concrete bogus metric. -/
theorem C3_amended_witness :
    NewMetric bogusMetric "gin" 0 = none ∧
    registerMetrics "gin" [bogusMetric] = .error .nilDereference ∧
    ∀ mv : Metric, mv.Kind ∈ vectorKinds → mv.Args = [] →
      ∃ c, NewMetric mv "gin" 0 = some c ∧ c.labelNames = [] :=
  C3_amended bogusMetric "gin" 0 (by decide)

/-- C4: the claim says a failed local fetch skips the push without
crashing. In the code `fetchMetrics` discards the transport error and runs
`resp.Body.Close()` unconditionally, so a failed `Do` call (nil response)
panics with a nil dereference and the whole tick dies instead of being
skipped. -/
theorem C4_fetch_crash :
    fetchMetrics none = .error GoPanic.nilDereference ∧
    pushTick { metricsURL := "http://127.0.0.1:80/metrics",
               pushGatewayURL := "http://gateway:9091" } none
      = .error GoPanic.nilDereference := ⟨rfl, rfl⟩

/-- C5 counterexample: the claim adds the content length only when it is
non-negative, but the code adds it whenever it differs from -1, so at
content length -2 the two formulas disagree (12 against 14). -/
theorem C5_counterexample :
    computeApproximateRequestSize negativeSizeReq = 12 ∧
    specApproximateRequestSize negativeSizeReq = 14 ∧
    computeApproximateRequestSize negativeSizeReq
      ≠ specApproximateRequestSize negativeSizeReq := by
  refine ⟨by decide, by decide, by decide⟩

/-- C5 amended: the approximation is the deterministic sum of path, method,
protocol, header and host lengths, plus the content length whenever it
differs from -1 (not only when non-negative); on the documented example
(GET /a HTTP/1.1, host h, no headers, content length -1) it is 14. -/
theorem C5_amended (r : HttpRequest) :
    computeApproximateRequestSize r =
      (match r.url with
        | some u => (u.path.length : Int)
        | none => 0)
      + (r.method.length : Int) + (r.proto.length : Int) + headerBytes r.header
      + (r.host.length : Int)
      + (if r.contentLength = -1 then 0 else r.contentLength) ∧
    computeApproximateRequestSize exampleSizeReq = 14 := by
  refine ⟨?_, by decide⟩
  show (if r.contentLength ≠ -1 then
      r.header.foldl
        (fun acc nv => nv.2.foldl (fun a v => a + (v.length : Int)) (acc + (nv.1.length : Int)))
        ((match r.url with
          | some u => (u.path.length : Int)
          | none => 0) + (r.method.length : Int) + (r.proto.length : Int))
        + (r.host.length : Int) + r.contentLength
    else
      r.header.foldl
        (fun acc nv => nv.2.foldl (fun a v => a + (v.length : Int)) (acc + (nv.1.length : Int)))
        ((match r.url with
          | some u => (u.path.length : Int)
          | none => 0) + (r.method.length : Int) + (r.proto.length : Int))
        + (r.host.length : Int)) = _
  rw [headerFoldShift]
  by_cases hc : r.contentLength = -1 <;> simp [hc]

/-- C6: the slow-request counter increments exactly when the elapsed time
strictly exceeds the configured threshold, and an elapsed time equal to the
threshold performs no update. -/
theorem C6_slow_threshold (slowTimeNs elapsedNs : Int) (col : Collector)
    (c : GinContext) (hk : col.kind = CollectorKind.counter) :
    ((slowMetric slowTimeNs col).Exec elapsedNs c
        = .ok [.counterInc col.id] ↔ slowTimeNs < elapsedNs) ∧
    (elapsedNs = slowTimeNs → (slowMetric slowTimeNs col).Exec elapsedNs c = .ok []) := by
  unfold Metric.Exec slowMetric runExec assertKind
  constructor
  · by_cases hlt : slowTimeNs < elapsedNs
    · simp [hlt, hk]
    · simp [hlt]
  · intro he
    simp [he]

/-- Witness for C6 at threshold 5 with elapsed time exactly 5. -/
theorem C6_slow_threshold_witness :
    ((slowMetric 5 counterCol).Exec 5 ctx0
        = .ok [.counterInc counterCol.id] ↔ (5 : Int) < 5) ∧
    ((5 : Int) = 5 → (slowMetric 5 counterCol).Exec 5 ctx0 = .ok []) :=
  C6_slow_threshold 5 5 counterCol ctx0 rfl

/-- C7: along every schedule of concurrent `Collector(jobName)` calls, the
collector is constructed at most once, and any two returned values are the
same single cached instance (with the construction having happened exactly
once as soon as any call returned). -/
theorem C7_once_unique (m : Metric) (job : String) (s : OnceModel.Sys)
    (h : OnceModel.Reaches m job OnceModel.initSys s) :
    s.constructions ≤ 1 ∧
    ∀ i j ri rj, s.threads i = .returned ri → s.threads j = .returned rj →
      ri = rj ∧ ri = s.slot ∧ s.constructions = 1 := by
  have hinv := OnceModel.inv_reaches m job _ s h OnceModel.inv_init
  obtain ⟨h1, h2, h3, h4⟩ := hinv
  refine ⟨h1, ?_⟩
  intro i j ri rj hi hj
  have hdone : s.done = true := by
    cases hdv : s.done
    · exact absurd hi ((h2 hdv).2.2 i ri)
    · rfl
  have hri := h4 i ri hi
  have hrj := h4 j rj hj
  exact ⟨hri.trans hrj.symm, hri, h3 hdone⟩

/-- Witness for C7: a concrete two-thread schedule on the example counter
metric. -/
theorem C7_once_unique_witness :
    onceTwoThreads.constructions ≤ 1 ∧
    ∀ i j ri rj, onceTwoThreads.threads i = .returned ri →
      onceTwoThreads.threads j = .returned rj →
      ri = rj ∧ ri = onceTwoThreads.slot ∧ onceTwoThreads.constructions = 1 :=
  C7_once_unique goodMetric "gin" onceTwoThreads
    (OnceModel.Reaches.step _ _ 1
      (OnceModel.Reaches.step _ _ 0 (OnceModel.Reaches.refl _) rfl) rfl)

/-- C8: registering two metrics with the same name under the same job name
either surfaces a registration error (handed to the logger, the second
metric skipped by the registry) or resolves both to the same collector; the
code realizes the first branch of the disjunction. -/
theorem C8_duplicate_name (m1 m2 : Metric) (job : String)
    (h1 : m1.Kind ∈ recognizedKinds) (h2 : m2.Kind ∈ recognizedKinds)
    (hname : m1.Name = m2.Name) :
    ∃ st, registerMetrics job [m1, m2] = .ok st ∧
      (st.logged ≠ [] ∨ ∃ c, st.collectors = [some c, some c]) := by
  obtain ⟨c1, hc1, hs1, hn1⟩ := newMetricKnown m1 job 0 h1
  obtain ⟨c2, hc2, hs2, hn2⟩ := newMetricKnown m2 job 1 h2
  have hfq : fqName c1.subsystem c1.name = fqName c2.subsystem c2.name := by
    rw [hs1, hs2, hn1, hn2, hname]
  refine ⟨⟨[c1], [some c1, some c2],
    [RegError.alreadyRegistered (fqName c2.subsystem c2.name)], 2⟩, ?_, Or.inl (by simp)⟩
  simp [registerMetrics, registerMetricsGo, registerOne, hc1, hc2, hfq]

/-- Witness for C8 with two concrete same-named metrics. -/
theorem C8_duplicate_name_witness :
    ∃ st, registerMetrics "gin" [dupMetricA, dupMetricB] = .ok st ∧
      (st.logged ≠ [] ∨ ∃ c, st.collectors = [some c, some c]) :=
  C8_duplicate_name dupMetricA dupMetricB "gin" (by decide) (by decide) rfl

/-- C9: with an empty local metrics-fetch URL, a push tick never issues a
POST to the push gateway, whatever the transport outcome of the local
fetch, even though a push gateway URL is configured. -/
theorem C9_empty_metrics_url (p : Prometheus)
    (hm : p.metricsURL = "") (_hg : p.pushGatewayURL ≠ "") :
    ∀ (doResult : Option HttpResponse) (post : PostRequest),
      pushTick p doResult ≠ .ok (some post) := by
  intro doResult post
  cases doResult with
  | none => simp [pushTick, fetchMetrics]
  | some resp => simp [pushTick, fetchMetrics, sendToPushGateway, hm]

/-- Witness for C9 on a concrete instance with a configured gateway, a
successful local fetch, and an arbitrary candidate POST. -/
theorem C9_empty_metrics_url_witness :
    pushTick pushConfigured (some ⟨[]⟩)
      ≠ .ok (some ⟨GetPushGatewayURL pushConfigured, []⟩) :=
  C9_empty_metrics_url pushConfigured rfl (by decide) (some ⟨[]⟩)
    ⟨GetPushGatewayURL pushConfigured, []⟩

/-- C10: with export accounts configured, the Authorization header attached
by the local fetch of the push forwarder is exactly the bare base64
encoding of `username:password`, and in particular is not that encoding
preceded by the `Basic ` scheme prefix. -/
theorem C10_bare_basic_auth (username password host : String) :
    (fetchRequest (New [WithExportAccounts [(username, password)]] host)).authorization
      = some (base64EncodeBytes (utf8Bytes (username ++ ":" ++ password))) ∧
    base64EncodeBytes (utf8Bytes (username ++ ":" ++ password))
      ≠ "Basic " ++ base64EncodeBytes (utf8Bytes (username ++ ":" ++ password)) := by
  constructor
  · have hne := metricsBasicAuthOf_ne_empty username password
    simp [New, WithExportAccounts, fetchRequest, metricsBasicAuthOf] at hne ⊢
    simp [hne]
  · intro hEq
    have hl := congrArg String.length hEq
    rw [stringLengthAppend] at hl
    have hb : ("Basic " : String).length = 6 := rfl
    omega

end GinMetrics
